import Mathlib

/-!
Verification of the triangle geometry kernel in `Code/Source/Triangle3.cpp`
of the Thea toolkit.  The C++ `Real` type is modelled as exact rational
arithmetic (`ℚ`); machine vectors `Real[3]` / `Vector3` become the `Vec3`
structure below.  Every definition mirrors the corresponding C++ function
or macro line by line.
-/

namespace Thea

/-- A 3D vector / point with rational coordinates, modelling `Vector3`
(and raw `Real[3]` buffers) from the source. -/
structure Vec3 where
  x : ℚ
  y : ℚ
  z : ℚ
deriving DecidableEq, Repr

namespace Vec3

/-- Component access by index, modelling `v[0]`, `v[1]`, `v[2]`.
The source only ever indexes with 0, 1 or 2. -/
def nth (v : Vec3) (i : ℕ) : ℚ :=
  match i with
  | 0 => v.x
  | 1 => v.y
  | _ => v.z

/-- The `SUB` macro / `Vector3` subtraction. -/
def sub (a b : Vec3) : Vec3 := ⟨a.x - b.x, a.y - b.y, a.z - b.z⟩

/-- The `ADD` macro / `Vector3` addition. -/
def add (a b : Vec3) : Vec3 := ⟨a.x + b.x, a.y + b.y, a.z + b.z⟩

/-- The `MULT` macro / scalar multiplication `v * factor`. -/
def smul (k : ℚ) (v : Vec3) : Vec3 := ⟨k * v.x, k * v.y, k * v.z⟩

/-- Negation (used to relate `cross(N1,N2)` and `cross(N2,N1)`). -/
def neg (v : Vec3) : Vec3 := ⟨-v.x, -v.y, -v.z⟩

/-- The `DOT` macro / `Vector3::dot`. -/
def dot (a b : Vec3) : ℚ := a.x * b.x + a.y * b.y + a.z * b.z

/-- The `CROSS` macro / `Vector3::cross`. -/
def cross (a b : Vec3) : Vec3 :=
  ⟨a.y * b.z - a.z * b.y, a.z * b.x - a.x * b.z, a.x * b.y - a.y * b.x⟩

/-- `Vector3::squaredNorm`. -/
def squaredNorm (v : Vec3) : ℚ := dot v v

/-- The zero vector (value of a `Real p[3] = {0}` initializer). -/
def zero : Vec3 := ⟨0, 0, 0⟩

instance : Add Vec3 := ⟨add⟩
instance : Sub Vec3 := ⟨sub⟩

theorem sub_def (a b : Vec3) : a - b = ⟨a.x - b.x, a.y - b.y, a.z - b.z⟩ := rfl

theorem add_def (a b : Vec3) : a + b = ⟨a.x + b.x, a.y + b.y, a.z + b.z⟩ := rfl

end Vec3

/-- `EPSILON` from `Triangle3.cpp` (the coplanarity snap threshold 0.000001). -/
def EPSILON : ℚ := 1 / 1000000

/-- The `USE_EPSILON_TEST` snap: `if (fabs(d) < EPSILON) d = 0;`. -/
def eps_snap (q : ℚ) : ℚ := if |q| < EPSILON then 0 else q

/-- `CROSS(N1,E1,E2)` applied to a triangle's two edges from its first
vertex: the (unnormalized) triangle normal computed at the top of
`tri_tri_intersect` and friends. -/
def triNormal (P0 P1 P2 : Vec3) : Vec3 := Vec3.cross (P1 - P0) (P2 - P0)

/-- The epsilon-snapped signed distance of `P` to the plane with normal `N`
and offset `doff` (`dv = DOT(N, P) + d` followed by the epsilon snap). -/
def snapDist (N : Vec3) (doff : ℚ) (P : Vec3) : ℚ := eps_snap (Vec3.dot N P + doff)

/-- All three epsilon-snapped signed distances of triangle `(B0,B1,B2)`'s
vertices to the plane of triangle `(A0,A1,A2)` are zero. -/
def allSnappedZero (A0 A1 A2 B0 B1 B2 : Vec3) : Prop :=
  snapDist (triNormal A0 A1 A2) (-(Vec3.dot (triNormal A0 A1 A2) A0)) B0 = 0 ∧
  snapDist (triNormal A0 A1 A2) (-(Vec3.dot (triNormal A0 A1 A2) A0)) B1 = 0 ∧
  snapDist (triNormal A0 A1 A2) (-(Vec3.dot (triNormal A0 A1 A2) A0)) B2 = 0

instance (A0 A1 A2 B0 B1 B2 : Vec3) : Decidable (allSnappedZero A0 A1 A2 B0 B1 B2) := by
  unfold allSnappedZero; infer_instance

/-! ### The coplanar test (`coplanar_tri_tri` and its macros) -/

/-- Axis-pair choice at the top of `coplanar_tri_tri`: project onto the two
coordinates `(i0, i1)` complementing the dominant axis of `|N|`. -/
def coplanarAxes (N : Vec3) : ℕ × ℕ :=
  let A0 := |N.x|
  let A1 := |N.y|
  let A2 := |N.z|
  if A0 > A1 then
    (if A0 > A2 then (1, 2) else (0, 1))
  else
    (if A2 > A1 then (0, 1) else (0, 2))

/-- The `EDGE_EDGE_TEST(V0,U0,U1)` macro: 2D segment intersection test of
edge `U0U1` against the edge starting at `V0` with direction `(Ax, Ay)`,
in the projection given by `(i0, i1)`.  Returns true iff the macro
executes `return 1`. -/
def edge_edge_test (i0 i1 : ℕ) (Ax Ay : ℚ) (V0 U0 U1 : Vec3) : Bool :=
  let Bx := U0.nth i0 - U1.nth i0
  let By := U0.nth i1 - U1.nth i1
  let Cx := V0.nth i0 - U0.nth i0
  let Cy := V0.nth i1 - U0.nth i1
  let f := Ay * Bx - Ax * By
  let d := By * Cx - Bx * Cy
  if (0 < f ∧ 0 ≤ d ∧ d ≤ f) ∨ (f < 0 ∧ d ≤ 0 ∧ f ≤ d) then
    let e := Ax * Cy - Ay * Cx
    if 0 < f then decide (0 ≤ e ∧ e ≤ f) else decide (e ≤ 0 ∧ f ≤ e)
  else false

/-- The `EDGE_AGAINST_TRI_EDGES(V0,V1,U0,U1,U2)` macro: edge `V0V1`
against the three edges of triangle `U`. -/
def edge_against_tri_edges (i0 i1 : ℕ) (V0 V1 U0 U1 U2 : Vec3) : Bool :=
  let Ax := V1.nth i0 - V0.nth i0
  let Ay := V1.nth i1 - V0.nth i1
  edge_edge_test i0 i1 Ax Ay V0 U0 U1 ||
  edge_edge_test i0 i1 Ax Ay V0 U1 U2 ||
  edge_edge_test i0 i1 Ax Ay V0 U2 U0

/-- The `POINT_IN_TRI(V0,U0,U1,U2)` macro: 2D barycentric-sign containment
test of `V0` inside triangle `U` in the `(i0, i1)` projection. -/
def point_in_tri (i0 i1 : ℕ) (V0 U0 U1 U2 : Vec3) : Bool :=
  let a0 := U1.nth i1 - U0.nth i1
  let b0 := -(U1.nth i0 - U0.nth i0)
  let c0 := -a0 * U0.nth i0 - b0 * U0.nth i1
  let d0 := a0 * V0.nth i0 + b0 * V0.nth i1 + c0
  let a1 := U2.nth i1 - U1.nth i1
  let b1 := -(U2.nth i0 - U1.nth i0)
  let c1 := -a1 * U1.nth i0 - b1 * U1.nth i1
  let d1 := a1 * V0.nth i0 + b1 * V0.nth i1 + c1
  let a2 := U0.nth i1 - U2.nth i1
  let b2 := -(U0.nth i0 - U2.nth i0)
  let c2 := -a2 * U2.nth i0 - b2 * U2.nth i1
  let d2 := a2 * V0.nth i0 + b2 * V0.nth i1 + c2
  decide (0 < d0 * d1 ∧ 0 < d0 * d2)

/-- `coplanar_tri_tri(N, V0, V1, V2, U0, U1, U2)`. -/
def coplanar_tri_tri (N V0 V1 V2 U0 U1 U2 : Vec3) : Bool :=
  let ij := coplanarAxes N
  edge_against_tri_edges ij.1 ij.2 V0 V1 U0 U1 U2 ||
  edge_against_tri_edges ij.1 ij.2 V1 V2 U0 U1 U2 ||
  edge_against_tri_edges ij.1 ij.2 V2 V0 U0 U1 U2 ||
  point_in_tri ij.1 ij.2 V0 U0 U1 U2 ||
  point_in_tri ij.1 ij.2 U0 V0 V1 V2

/-! ### The interval computations of the two overlap-test variants -/

/-- The `ISECT` macro: interval endpoints by explicit division. -/
def isect (VV0 VV1 VV2 D0 D1 D2 : ℚ) : ℚ × ℚ :=
  (VV0 + (VV1 - VV0) * D0 / (D0 - D1), VV0 + (VV2 - VV0) * D0 / (D0 - D2))

/-- The `COMPUTE_INTERVALS` macro of `tri_tri_intersect`; `none` models the
`return coplanar_tri_tri(...)` fallback taken when all three distances
are zero. -/
def compute_intervals (VV0 VV1 VV2 D0 D1 D2 D0D1 D0D2 : ℚ) : Option (ℚ × ℚ) :=
  if 0 < D0D1 then some (isect VV2 VV0 VV1 D2 D0 D1)
  else if 0 < D0D2 then some (isect VV1 VV0 VV2 D1 D0 D2)
  else if 0 < D1 * D2 ∨ D0 ≠ 0 then some (isect VV0 VV1 VV2 D0 D1 D2)
  else if D1 ≠ 0 then some (isect VV1 VV0 VV2 D1 D0 D2)
  else if D2 ≠ 0 then some (isect VV2 VV0 VV1 D2 D0 D1)
  else none

/-- The `NEWCOMPUTE_INTERVALS` macro of `NoDivTriTriIsect`: produces the
quintuple `(A, B, C, X0, X1)`; `none` models the coplanar fallback. -/
def newcompute_intervals (VV0 VV1 VV2 D0 D1 D2 D0D1 D0D2 : ℚ) :
    Option (ℚ × ℚ × ℚ × ℚ × ℚ) :=
  if 0 < D0D1 then some (VV2, (VV0 - VV2) * D2, (VV1 - VV2) * D2, D2 - D0, D2 - D1)
  else if 0 < D0D2 then some (VV1, (VV0 - VV1) * D1, (VV2 - VV1) * D1, D1 - D0, D1 - D2)
  else if 0 < D1 * D2 ∨ D0 ≠ 0 then some (VV0, (VV1 - VV0) * D0, (VV2 - VV0) * D0, D0 - D1, D0 - D2)
  else if D1 ≠ 0 then some (VV1, (VV0 - VV1) * D1, (VV2 - VV1) * D1, D1 - D0, D1 - D2)
  else if D2 ≠ 0 then some (VV2, (VV0 - VV2) * D2, (VV1 - VV2) * D2, D2 - D0, D2 - D1)
  else none

/-- Projection-axis choice: index of the largest `|component|` of the
intersection-line direction `D` (`max`/`index` computation in the source;
ties keep the earlier index, exactly as the strict `>` tests do). -/
def projIndex (D : Vec3) : ℕ :=
  let m0 := |D.x|
  let p1 := if |D.y| > m0 then (|D.y|, 1) else (m0, 0)
  if |D.z| > p1.1 then 2 else p1.2

/-- The `SORT` macro: order a pair so that its first component is least. -/
def sortPair (p : ℚ × ℚ) : ℚ × ℚ := if p.1 > p.2 then (p.2, p.1) else p

/-- The final interval-overlap test
`!(isect1[1] < isect2[0] || isect2[1] < isect1[0])`. -/
def intervalsOverlap (s1 s2 : ℚ × ℚ) : Bool := !(decide (s1.2 < s2.1) || decide (s2.2 < s1.1))

/-- `tri_tri_intersect` (Möller's division-based triangle overlap test). -/
def tri_tri_intersect (V0 V1 V2 U0 U1 U2 : Vec3) : Bool :=
  let N1 := triNormal V0 V1 V2
  let d1 := -(Vec3.dot N1 V0)
  let du0 := eps_snap (Vec3.dot N1 U0 + d1)
  let du1 := eps_snap (Vec3.dot N1 U1 + d1)
  let du2 := eps_snap (Vec3.dot N1 U2 + d1)
  let du0du1 := du0 * du1
  let du0du2 := du0 * du2
  if 0 < du0du1 ∧ 0 < du0du2 then false
  else
    let N2 := triNormal U0 U1 U2
    let d2 := -(Vec3.dot N2 U0)
    let dv0 := eps_snap (Vec3.dot N2 V0 + d2)
    let dv1 := eps_snap (Vec3.dot N2 V1 + d2)
    let dv2 := eps_snap (Vec3.dot N2 V2 + d2)
    let dv0dv1 := dv0 * dv1
    let dv0dv2 := dv0 * dv2
    if 0 < dv0dv1 ∧ 0 < dv0dv2 then false
    else
      let D := Vec3.cross N1 N2
      let idx := projIndex D
      let vp0 := V0.nth idx
      let vp1 := V1.nth idx
      let vp2 := V2.nth idx
      let up0 := U0.nth idx
      let up1 := U1.nth idx
      let up2 := U2.nth idx
      match compute_intervals vp0 vp1 vp2 dv0 dv1 dv2 dv0dv1 dv0dv2 with
      | none => coplanar_tri_tri N1 V0 V1 V2 U0 U1 U2
      | some is1 =>
        match compute_intervals up0 up1 up2 du0 du1 du2 du0du1 du0du2 with
        | none => coplanar_tri_tri N1 V0 V1 V2 U0 U1 U2
        | some is2 =>
          intervalsOverlap (sortPair is1) (sortPair is2)

/-- `NoDivTriTriIsect` (the no-division variant). -/
def NoDivTriTriIsect (V0 V1 V2 U0 U1 U2 : Vec3) : Bool :=
  let N1 := triNormal V0 V1 V2
  let d1 := -(Vec3.dot N1 V0)
  let du0 := eps_snap (Vec3.dot N1 U0 + d1)
  let du1 := eps_snap (Vec3.dot N1 U1 + d1)
  let du2 := eps_snap (Vec3.dot N1 U2 + d1)
  let du0du1 := du0 * du1
  let du0du2 := du0 * du2
  if 0 < du0du1 ∧ 0 < du0du2 then false
  else
    let N2 := triNormal U0 U1 U2
    let d2 := -(Vec3.dot N2 U0)
    let dv0 := eps_snap (Vec3.dot N2 V0 + d2)
    let dv1 := eps_snap (Vec3.dot N2 V1 + d2)
    let dv2 := eps_snap (Vec3.dot N2 V2 + d2)
    let dv0dv1 := dv0 * dv1
    let dv0dv2 := dv0 * dv2
    if 0 < dv0dv1 ∧ 0 < dv0dv2 then false
    else
      let D := Vec3.cross N1 N2
      let idx := projIndex D
      let vp0 := V0.nth idx
      let vp1 := V1.nth idx
      let vp2 := V2.nth idx
      let up0 := U0.nth idx
      let up1 := U1.nth idx
      let up2 := U2.nth idx
      match newcompute_intervals vp0 vp1 vp2 dv0 dv1 dv2 dv0dv1 dv0dv2 with
      | none => coplanar_tri_tri N1 V0 V1 V2 U0 U1 U2
      | some q1 =>
        match newcompute_intervals up0 up1 up2 du0 du1 du2 du0du1 du0du2 with
        | none => coplanar_tri_tri N1 V0 V1 V2 U0 U1 U2
        | some q2 =>
          let a := q1.1
          let b := q1.2.1
          let c := q1.2.2.1
          let x0 := q1.2.2.2.1
          let x1 := q1.2.2.2.2
          let dd := q2.1
          let e := q2.2.1
          let f := q2.2.2.1
          let y0 := q2.2.2.2.1
          let y1 := q2.2.2.2.2
          let xx := x0 * x1
          let yy := y0 * y1
          let xxyy := xx * yy
          let is1 : ℚ × ℚ := (a * xxyy + b * x1 * yy, a * xxyy + c * x0 * yy)
          let is2 : ℚ × ℚ := (dd * xxyy + e * xx * y1, dd * xxyy + f * xx * y0)
          intervalsOverlap (sortPair is1) (sortPair is2)

/-! ### Intersection-segment reconstruction (`tri_tri_intersect_with_isectline`) -/

/-- The `SORT2` macro: sorted pair plus the `smallest` flag (true iff the
arguments were swapped). -/
def sort2 (a b : ℚ) : ℚ × ℚ × Bool := if a > b then (b, a, true) else (a, b, false)

/-- The helper `isect2`: the two 1D interval endpoints together with the
corresponding 3D points on the triangle's edges. -/
def isect2fn (VTX0 VTX1 VTX2 : Vec3) (VV0 VV1 VV2 D0 D1 D2 : ℚ) :
    ℚ × ℚ × Vec3 × Vec3 :=
  let tmp0 := D0 / (D0 - D1)
  let i0 := VV0 + (VV1 - VV0) * tmp0
  let p0 := Vec3.add (Vec3.smul tmp0 (VTX1 - VTX0)) VTX0
  let tmp1 := D0 / (D0 - D2)
  let i1 := VV0 + (VV2 - VV0) * tmp1
  let p1 := Vec3.add VTX0 (Vec3.smul tmp1 (VTX2 - VTX0))
  (i0, i1, p0, p1)

/-- `compute_intervals_isectline`; `none` models the `return 1` taken in
the coplanar case (in which the out-parameters are left unwritten). -/
def compute_intervals_isectline (VERT0 VERT1 VERT2 : Vec3)
    (VV0 VV1 VV2 D0 D1 D2 D0D1 D0D2 : ℚ) : Option (ℚ × ℚ × Vec3 × Vec3) :=
  if 0 < D0D1 then some (isect2fn VERT2 VERT0 VERT1 VV2 VV0 VV1 D2 D0 D1)
  else if 0 < D0D2 then some (isect2fn VERT1 VERT0 VERT2 VV1 VV0 VV2 D1 D0 D2)
  else if 0 < D1 * D2 ∨ D0 ≠ 0 then some (isect2fn VERT0 VERT1 VERT2 VV0 VV1 VV2 D0 D1 D2)
  else if D1 ≠ 0 then some (isect2fn VERT1 VERT0 VERT2 VV1 VV0 VV2 D1 D0 D2)
  else if D2 ≠ 0 then some (isect2fn VERT2 VERT0 VERT1 VV2 VV0 VV1 D2 D0 D1)
  else none

/-- Result of `tri_tri_intersect_with_isectline`: the returned boolean, the
`*coplanar` out-parameter (`none` when the function returns before the
line that writes it), and the `isectpt1`/`isectpt2` out-parameters
(`none` when they are never written). -/
structure IsectLineResult where
  ret : Bool
  coplanar : Option Bool
  pts : Option (Vec3 × Vec3)
deriving DecidableEq, Repr

/-- `tri_tri_intersect_with_isectline`.  Note that the source discards the
return value of the second `compute_intervals_isectline` call, so a
coplanar outcome there leaves `isect2`/`isectpointB*` at their zero
initializers and does not touch `*coplanar` (modelled by `getD`). -/
def tri_tri_intersect_with_isectline (V0 V1 V2 U0 U1 U2 : Vec3) : IsectLineResult :=
  let N1 := triNormal V0 V1 V2
  let d1 := -(Vec3.dot N1 V0)
  let du0 := eps_snap (Vec3.dot N1 U0 + d1)
  let du1 := eps_snap (Vec3.dot N1 U1 + d1)
  let du2 := eps_snap (Vec3.dot N1 U2 + d1)
  let du0du1 := du0 * du1
  let du0du2 := du0 * du2
  if 0 < du0du1 ∧ 0 < du0du2 then ⟨false, none, none⟩
  else
    let N2 := triNormal U0 U1 U2
    let d2 := -(Vec3.dot N2 U0)
    let dv0 := eps_snap (Vec3.dot N2 V0 + d2)
    let dv1 := eps_snap (Vec3.dot N2 V1 + d2)
    let dv2 := eps_snap (Vec3.dot N2 V2 + d2)
    let dv0dv1 := dv0 * dv1
    let dv0dv2 := dv0 * dv2
    if 0 < dv0dv1 ∧ 0 < dv0dv2 then ⟨false, none, none⟩
    else
      let D := Vec3.cross N1 N2
      let idx := projIndex D
      let vp0 := V0.nth idx
      let vp1 := V1.nth idx
      let vp2 := V2.nth idx
      let up0 := U0.nth idx
      let up1 := U1.nth idx
      let up2 := U2.nth idx
      match compute_intervals_isectline V0 V1 V2 vp0 vp1 vp2 dv0 dv1 dv2 dv0dv1 dv0dv2 with
      | none => ⟨coplanar_tri_tri N1 V0 V1 V2 U0 U1 U2, some true, none⟩
      | some q1 =>
        let q2 := (compute_intervals_isectline U0 U1 U2 up0 up1 up2 du0 du1 du2
            du0du1 du0du2).getD (0, 0, Vec3.zero, Vec3.zero)
        let isectpointA1 := q1.2.2.1
        let isectpointA2 := q1.2.2.2
        let isectpointB1 := q2.2.2.1
        let isectpointB2 := q2.2.2.2
        let s1 := sort2 q1.1 q1.2.1
        let s2 := sort2 q2.1 q2.2.1
        let smallest1 := s1.2.2
        let smallest2 := s2.2.2
        if s1.2.1 < s2.1 ∨ s2.2.1 < s1.1 then ⟨false, some false, none⟩
        else
          if s2.1 < s1.1 then
            let pt1 := if smallest1 = false then isectpointA1 else isectpointA2
            let pt2 :=
              if s2.2.1 < s1.2.1 then
                (if smallest2 = false then isectpointB2 else isectpointB1)
              else
                (if smallest1 = false then isectpointA2 else isectpointA1)
            ⟨true, some false, some (pt1, pt2)⟩
          else
            let pt1 := if smallest2 = false then isectpointB1 else isectpointB2
            let pt2 :=
              if s1.2.1 < s2.2.1 then
                (if smallest1 = false then isectpointA2 else isectpointA1)
              else
                (if smallest2 = false then isectpointB2 else isectpointB1)
            ⟨true, some false, some (pt1, pt2)⟩

/-! ### Closest-point kernel -/

/-- `closestPointOnLineSegment`. -/
def closestPointOnLineSegment (v0 v1 edgeDirection : Vec3) (edgeLength : ℚ)
    (point : Vec3) : Vec3 :=
  let c := point - v0
  let t := Vec3.dot edgeDirection c
  if t ≤ 0 then v0
  else if t ≥ edgeLength then v1
  else v0 + Vec3.smul t edgeDirection

/-- `closestPointOnTrianglePerimeter` (the primary five-argument variant);
the result pairs the returned point with the `edgeIndex` out-parameter. -/
def closestPointOnTrianglePerimeter (v0 v1 v2 e0 e1 e2 : Vec3)
    (l0 l1 l2 : ℚ) (point : Vec3) : Vec3 × ℕ :=
  let r0 := closestPointOnLineSegment v0 v1 e0 l0 point
  let r1 := closestPointOnLineSegment v1 v2 e1 l1 point
  let r2 := closestPointOnLineSegment v2 v0 e2 l2 point
  let dd0 := Vec3.squaredNorm (r0 - point)
  let dd1 := Vec3.squaredNorm (r1 - point)
  let dd2 := Vec3.squaredNorm (r2 - point)
  if dd0 < dd1 then
    (if dd0 < dd2 then (r0, 0) else (r2, 2))
  else
    (if dd1 < dd2 then (r1, 1) else (r2, 2))

/-! ### Point-in-triangle test -/

/-- The `switch (primary_axis)` at the top of `isPointInsideTriangle`:
any axis other than 1 or 2 falls into the `default` case. -/
def insideAxes (primary_axis : ℤ) : ℕ × ℕ :=
  if primary_axis = 1 then (2, 0)
  else if primary_axis = 2 then (0, 1)
  else (1, 2)

/-- The `THEA_TRIANGLE_AREA2(d, e, f)` macro (doubled signed area of the
2D projection onto coordinates `(i, j)`). -/
def area2 (i j : ℕ) (d e f : Vec3) : ℚ :=
  (e.nth i - d.nth i) * (f.nth j - d.nth j) - (f.nth i - d.nth i) * (e.nth j - d.nth j)

/-- `isPointInsideTriangle`. -/
def isPointInsideTriangle (v0 v1 v2 : Vec3) (primary_axis : ℤ) (p : Vec3) : Bool :=
  let ij := insideAxes primary_axis
  let area := area2 ij.1 ij.2 v0 v1 v2
  if area = 0 then decide (v0 = p)
  else
    let inv_area := 1 / area
    let b0 := area2 ij.1 ij.2 p v1 v2 * inv_area
    if b0 < 0 ∨ 1 < b0 then false
    else
      let b1 := area2 ij.1 ij.2 v0 p v2 * inv_area
      if b1 < 0 ∨ 1 < b1 then false
      else
        let b2 := 1 - b0 - b1
        decide (0 ≤ b2 ∧ b2 ≤ 1)

/-! ### Ray–triangle intersection -/

/-- `Ray3`: origin plus direction. -/
structure Ray3 where
  origin : Vec3
  direction : Vec3
deriving DecidableEq, Repr

/-- The tolerance `EPS = 1e-30f` of `rayTriangleIntersectionTime`. -/
def rayEPS : ℚ := 1 / 10 ^ 30

/-- The shared tail of `rayTriangleIntersectionTime` after `sign` and the
sign-folded `DdN` have been fixed by the parallelism test. -/
def rayTriTail (dir diff edge01 edge02 normal : Vec3) (sign DdN : ℚ) : ℚ :=
  let DdQxE2 := sign * Vec3.dot dir (Vec3.cross diff edge02)
  if 0 ≤ DdQxE2 then
    let DdE1xQ := sign * Vec3.dot dir (Vec3.cross edge01 diff)
    if 0 ≤ DdE1xQ then
      if DdQxE2 + DdE1xQ ≤ DdN then
        let QdN := -sign * Vec3.dot diff normal
        if 0 ≤ QdN then QdN / DdN else -1
      else -1
    else -1
  else -1

/-- `rayTriangleIntersectionTime`. -/
def rayTriangleIntersectionTime (ray : Ray3) (v0 edge01 edge02 : Vec3) : ℚ :=
  let diff := ray.origin - v0
  let normal := Vec3.cross edge01 edge02
  let DdN := Vec3.dot ray.direction normal
  if DdN > rayEPS then rayTriTail ray.direction diff edge01 edge02 normal 1 DdN
  else if DdN < -rayEPS then rayTriTail ray.direction diff edge01 edge02 normal (-1) (-DdN)
  else -1

/-! ### Helper lemmas -/

theorem cross_swap (a b : Vec3) : Vec3.cross a b = Vec3.neg (Vec3.cross b a) := by
  simp only [Vec3.cross, Vec3.neg, Vec3.mk.injEq]
  refine ⟨by ring, by ring, by ring⟩

theorem projIndex_neg (D : Vec3) : projIndex (Vec3.neg D) = projIndex D := by
  simp only [projIndex, Vec3.neg, abs_neg]

theorem intervalsOverlap_comm (s1 s2 : ℚ × ℚ) :
    intervalsOverlap s1 s2 = intervalsOverlap s2 s1 := by
  simp only [intervalsOverlap, Bool.or_comm]

theorem sortPair_eq_min_max (p : ℚ × ℚ) : sortPair p = (min p.1 p.2, max p.1 p.2) := by
  unfold sortPair
  rcases le_or_lt p.1 p.2 with h | h
  · rw [if_neg (not_lt.mpr h), min_eq_left h, max_eq_right h]
  · rw [if_pos h, min_eq_right h.le, max_eq_left h.le]

theorem compute_intervals_none_iff (VV0 VV1 VV2 D0 D1 D2 : ℚ) :
    compute_intervals VV0 VV1 VV2 D0 D1 D2 (D0 * D1) (D0 * D2) = none ↔
      D0 = 0 ∧ D1 = 0 ∧ D2 = 0 := by
  unfold compute_intervals
  split_ifs with h1 h2 h3 h4 h5
  · simp only [reduceCtorEq, false_iff]
    rintro ⟨rfl, rfl, rfl⟩; norm_num at h1
  · simp only [reduceCtorEq, false_iff]
    rintro ⟨rfl, rfl, rfl⟩; norm_num at h2
  · simp only [reduceCtorEq, false_iff]
    rintro ⟨rfl, rfl, rfl⟩
    rcases h3 with h | h <;> norm_num at h
  · simp only [reduceCtorEq, false_iff]
    rintro ⟨rfl, rfl, rfl⟩; exact h4 rfl
  · simp only [reduceCtorEq, false_iff]
    rintro ⟨rfl, rfl, rfl⟩; exact h5 rfl
  · push_neg at h3 h4 h5
    simp only [true_iff]
    exact ⟨h3.2, h4, h5⟩

/-! ### Claim theorems -/

/-- C8: two triangles sharing exactly one edge — here
T1 = (0,0,0),(1,0,0),(0,1,0) and T2 = (1,0,0),(0,0,0),(0,0,1) — are
reported as intersecting by `tri_tri_intersect`. -/
theorem claim_C8 :
    tri_tri_intersect ⟨0,0,0⟩ ⟨1,0,0⟩ ⟨0,1,0⟩ ⟨1,0,0⟩ ⟨0,0,0⟩ ⟨0,0,1⟩ = true := by
  norm_num [tri_tri_intersect, NoDivTriTriIsect, newcompute_intervals,
    tri_tri_intersect_with_isectline, compute_intervals_isectline, isect2fn, sort2,
    triNormal, Vec3.cross, Vec3.dot, Vec3.sub_def, Vec3.add_def, Vec3.smul, Vec3.nth,
    Vec3.zero, Vec3.squaredNorm, Vec3.mk.injEq, eps_snap, EPSILON, abs_lt, projIndex,
    compute_intervals, isect, coplanar_tri_tri, coplanarAxes, edge_against_tri_edges,
    edge_edge_test, point_in_tri, sortPair, intervalsOverlap, snapDist, allSnappedZero,
    closestPointOnLineSegment, closestPointOnTrianglePerimeter, isPointInsideTriangle,
    insideAxes, area2, rayTriangleIntersectionTime, rayTriTail, rayEPS]

/-- C7: `closestPointOnLineSegment` returns `v0` when the scalar projection
of `point − v0` onto the direction is at most 0, `v1` when it is at least
the segment length, and the interpolated point otherwise; in particular,
for segment (0,0,0)-(1,0,0) it returns (1,0,0) for query (2,0,0), (0,0,0)
for query (-1,0,0), and (0.5,0,0) for query (0.5,1,0). -/
theorem claim_C7 :
    (∀ (v0 v1 edgeDirection : Vec3) (edgeLength : ℚ) (point : Vec3),
      closestPointOnLineSegment v0 v1 edgeDirection edgeLength point =
        if Vec3.dot edgeDirection (point - v0) ≤ 0 then v0
        else if Vec3.dot edgeDirection (point - v0) ≥ edgeLength then v1
        else v0 + Vec3.smul (Vec3.dot edgeDirection (point - v0)) edgeDirection) ∧
    closestPointOnLineSegment ⟨0,0,0⟩ ⟨1,0,0⟩ ⟨1,0,0⟩ 1 ⟨2,0,0⟩ = ⟨1,0,0⟩ ∧
    closestPointOnLineSegment ⟨0,0,0⟩ ⟨1,0,0⟩ ⟨1,0,0⟩ 1 ⟨-1,0,0⟩ = ⟨0,0,0⟩ ∧
    closestPointOnLineSegment ⟨0,0,0⟩ ⟨1,0,0⟩ ⟨1,0,0⟩ 1 ⟨1/2,1,0⟩ = ⟨1/2,0,0⟩ := by
  have heval : ∀ (v0 v1 eDir : Vec3) (eLen : ℚ) (point : Vec3),
      closestPointOnLineSegment v0 v1 eDir eLen point =
        if Vec3.dot eDir (point - v0) ≤ 0 then v0
        else if Vec3.dot eDir (point - v0) ≥ eLen then v1
        else v0 + Vec3.smul (Vec3.dot eDir (point - v0)) eDir :=
    fun v0 v1 eDir eLen point => rfl
  refine ⟨heval, ?_, ?_, ?_⟩ <;>
    norm_num [heval, Vec3.dot, Vec3.sub_def, Vec3.add_def, Vec3.smul, Vec3.mk.injEq]

/-- C6: whenever the 2D projected area test of `isPointInsideTriangle`
finds a zero-area (degenerate) triangle, the result is true iff the query
point exactly equals the designated vertex `v0`. -/
theorem claim_C6 : ∀ (v0 v1 v2 : Vec3) (primary_axis : ℤ) (p : Vec3),
    area2 (insideAxes primary_axis).1 (insideAxes primary_axis).2 v0 v1 v2 = 0 →
    (isPointInsideTriangle v0 v1 v2 primary_axis p = true ↔ v0 = p) := by
  intro v0 v1 v2 primary_axis p h
  simp only [isPointInsideTriangle]
  rw [if_pos h]
  simp

/-- Witness for C6: a point-triangle with all three vertices (2,3,4) has
zero projected area, and the containment test succeeds exactly at (2,3,4). -/
theorem claim_C6_witness :
    area2 (insideAxes 0).1 (insideAxes 0).2 ⟨2,3,4⟩ ⟨2,3,4⟩ ⟨2,3,4⟩ = 0 ∧
    (isPointInsideTriangle ⟨2,3,4⟩ ⟨2,3,4⟩ ⟨2,3,4⟩ 0 ⟨2,3,4⟩ = true ↔
      (⟨2,3,4⟩ : Vec3) = ⟨2,3,4⟩) :=
  ⟨by norm_num [area2, insideAxes, Vec3.nth],
    claim_C6 ⟨2,3,4⟩ ⟨2,3,4⟩ ⟨2,3,4⟩ 0 ⟨2,3,4⟩ (by norm_num [area2, insideAxes, Vec3.nth])⟩

/-- C10: `isPointInsideTriangle` treats any primary-axis value other than
1 or 2 (such as 3 or −1) exactly like axis 0. -/
theorem claim_C10 : ∀ (v0 v1 v2 : Vec3) (primary_axis : ℤ) (p : Vec3),
    primary_axis ≠ 1 → primary_axis ≠ 2 →
    isPointInsideTriangle v0 v1 v2 primary_axis p =
      isPointInsideTriangle v0 v1 v2 0 p := by
  intro v0 v1 v2 primary_axis p h1 h2
  have hax : insideAxes primary_axis = insideAxes 0 := by
    unfold insideAxes
    rw [if_neg h1, if_neg h2]
    norm_num
  simp only [isPointInsideTriangle, hax]

/-- Witness for C10: out-of-range axis 3 behaves like axis 0 on a concrete
triangle and query point. -/
theorem claim_C10_witness :
    (3 : ℤ) ≠ 1 ∧ (3 : ℤ) ≠ 2 ∧
    isPointInsideTriangle ⟨0,0,0⟩ ⟨1,0,0⟩ ⟨0,1,0⟩ 3 ⟨1/4,1/4,0⟩ =
      isPointInsideTriangle ⟨0,0,0⟩ ⟨1,0,0⟩ ⟨0,1,0⟩ 0 ⟨1/4,1/4,0⟩ :=
  ⟨by norm_num, by norm_num,
    claim_C10 ⟨0,0,0⟩ ⟨1,0,0⟩ ⟨0,1,0⟩ 3 ⟨1/4,1/4,0⟩ (by norm_num) (by norm_num)⟩

/-- C9: `rayTriangleIntersectionTime` returns either exactly −1 or a
non-negative time; no other negative value is possible. -/
theorem claim_C9 : ∀ (ray : Ray3) (v0 edge01 edge02 : Vec3),
    rayTriangleIntersectionTime ray v0 edge01 edge02 = -1 ∨
      0 ≤ rayTriangleIntersectionTime ray v0 edge01 edge02 := by
  intro ray v0 edge01 edge02
  have hEPS : (0 : ℚ) < rayEPS := by norm_num [rayEPS]
  simp only [rayTriangleIntersectionTime, rayTriTail]
  split_ifs with hp hb1 hb2 hsum ht hn hb1 hb2 hsum ht
  all_goals first
    | (left; rfl)
    | (right; apply div_nonneg ‹_›; linarith)

/-- C2 counterexample: `tri_tri_intersect` is not symmetric — for the
unit triangle in the z=0 plane and the degenerate point-triangle at
(3/10, 3/10, 0), the two argument orders give different results. -/
theorem claim_C2_counterexample :
    tri_tri_intersect ⟨0,0,0⟩ ⟨1,0,0⟩ ⟨0,1,0⟩
        ⟨3/10,3/10,0⟩ ⟨3/10,3/10,0⟩ ⟨3/10,3/10,0⟩ ≠
      tri_tri_intersect ⟨3/10,3/10,0⟩ ⟨3/10,3/10,0⟩ ⟨3/10,3/10,0⟩
        ⟨0,0,0⟩ ⟨1,0,0⟩ ⟨0,1,0⟩ := by
  norm_num [tri_tri_intersect, NoDivTriTriIsect, newcompute_intervals,
    tri_tri_intersect_with_isectline, compute_intervals_isectline, isect2fn, sort2,
    triNormal, Vec3.cross, Vec3.dot, Vec3.sub_def, Vec3.add_def, Vec3.smul, Vec3.nth,
    Vec3.zero, Vec3.squaredNorm, Vec3.mk.injEq, eps_snap, EPSILON, abs_lt, projIndex,
    compute_intervals, isect, coplanar_tri_tri, coplanarAxes, edge_against_tri_edges,
    edge_edge_test, point_in_tri, sortPair, intervalsOverlap, snapDist, allSnappedZero,
    closestPointOnLineSegment, closestPointOnTrianglePerimeter, isPointInsideTriangle,
    insideAxes, area2, rayTriangleIntersectionTime, rayTriTail, rayEPS]

/-- C3 counterexample: for the unit triangle and a long sliver whose three
epsilon-snapped distances to the unit triangle's plane are all zero (one
triangle's vertices on the other's plane, per the claim), the
reconstruction nevertheless reports `coplanar = false`, because the
source discards the second `compute_intervals_isectline` return value. -/
theorem claim_C3_counterexample :
    allSnappedZero ⟨0,0,0⟩ ⟨1,0,0⟩ ⟨0,1,0⟩
        ⟨0,0,0⟩ ⟨10,0,1/2000000⟩ ⟨10,10,0⟩ ∧
      (tri_tri_intersect_with_isectline ⟨0,0,0⟩ ⟨1,0,0⟩ ⟨0,1,0⟩
          ⟨0,0,0⟩ ⟨10,0,1/2000000⟩ ⟨10,10,0⟩).coplanar = some false := by
  constructor <;>
    norm_num [tri_tri_intersect, NoDivTriTriIsect, newcompute_intervals,
    tri_tri_intersect_with_isectline, compute_intervals_isectline, isect2fn, sort2,
    triNormal, Vec3.cross, Vec3.dot, Vec3.sub_def, Vec3.add_def, Vec3.smul, Vec3.nth,
    Vec3.zero, Vec3.squaredNorm, Vec3.mk.injEq, eps_snap, EPSILON, abs_lt, projIndex,
    compute_intervals, isect, coplanar_tri_tri, coplanarAxes, edge_against_tri_edges,
    edge_edge_test, point_in_tri, sortPair, intervalsOverlap, snapDist, allSnappedZero,
    closestPointOnLineSegment, closestPointOnTrianglePerimeter, isPointInsideTriangle,
    insideAxes, area2, rayTriangleIntersectionTime, rayTriTail, rayEPS]

theorem compute_intervals_isectline_zero (VERT0 VERT1 VERT2 : Vec3)
    (VV0 VV1 VV2 : ℚ) :
    compute_intervals_isectline VERT0 VERT1 VERT2 VV0 VV1 VV2 0 0 0 (0 * 0) (0 * 0) =
      none := by
  norm_num [compute_intervals_isectline]

/-- C3 (amended): `tri_tri_intersect_with_isectline` reports
`coplanar = true` — returning the coplanar test's boolean and producing no
segment geometry — exactly when the FIRST triangle's three epsilon-snapped
signed distances to the second triangle's plane are all zero (the second
triangle's distances being all zero does not trigger the coplanar path,
because the source discards the second `compute_intervals_isectline`
return value).  The early same-side rejection must not fire first. -/
theorem claim_C3_amended : ∀ V0 V1 V2 U0 U1 U2 : Vec3,
    ¬ (0 < snapDist (triNormal V0 V1 V2) (-(Vec3.dot (triNormal V0 V1 V2) V0)) U0 *
          snapDist (triNormal V0 V1 V2) (-(Vec3.dot (triNormal V0 V1 V2) V0)) U1 ∧
        0 < snapDist (triNormal V0 V1 V2) (-(Vec3.dot (triNormal V0 V1 V2) V0)) U0 *
          snapDist (triNormal V0 V1 V2) (-(Vec3.dot (triNormal V0 V1 V2) V0)) U2) →
    allSnappedZero U0 U1 U2 V0 V1 V2 →
    tri_tri_intersect_with_isectline V0 V1 V2 U0 U1 U2 =
      ⟨coplanar_tri_tri (triNormal V0 V1 V2) V0 V1 V2 U0 U1 U2, some true, none⟩ := by
  intro V0 V1 V2 U0 U1 U2 hdu hdv
  obtain ⟨h0, h1, h2⟩ := hdv
  simp only [snapDist] at hdu h0 h1 h2
  simp only [tri_tri_intersect_with_isectline]
  rw [if_neg hdu]
  simp only [h0, h1, h2]
  rw [if_neg (by norm_num)]
  simp only [compute_intervals_isectline_zero]

/-- Witness for the amended C3: a genuinely coplanar pair (both triangles
in the z = 0 plane) takes the coplanar path with `coplanar = some true`
and no segment output. -/
theorem claim_C3_amended_witness :
    tri_tri_intersect_with_isectline ⟨0,0,0⟩ ⟨1,0,0⟩ ⟨0,1,0⟩ ⟨5,5,0⟩ ⟨6,5,0⟩ ⟨5,6,0⟩ =
      ⟨coplanar_tri_tri (triNormal ⟨0,0,0⟩ ⟨1,0,0⟩ ⟨0,1,0⟩)
          ⟨0,0,0⟩ ⟨1,0,0⟩ ⟨0,1,0⟩ ⟨5,5,0⟩ ⟨6,5,0⟩ ⟨5,6,0⟩, some true, none⟩ :=
  claim_C3_amended ⟨0,0,0⟩ ⟨1,0,0⟩ ⟨0,1,0⟩ ⟨5,5,0⟩ ⟨6,5,0⟩ ⟨5,6,0⟩
    (by norm_num [snapDist, eps_snap, EPSILON, triNormal, Vec3.cross, Vec3.dot,
      Vec3.sub_def, abs_lt])
    (by norm_num [allSnappedZero, snapDist, eps_snap, EPSILON, triNormal, Vec3.cross,
      Vec3.dot, Vec3.sub_def, abs_lt])

/-- C2 (amended): `tri_tri_intersect` is symmetric on every input that does
not take the coplanar fallback, i.e. whenever neither triangle's three
epsilon-snapped signed distances to the other's plane are all zero. -/
theorem claim_C2_amended : ∀ V0 V1 V2 U0 U1 U2 : Vec3,
    ¬ allSnappedZero V0 V1 V2 U0 U1 U2 →
    ¬ allSnappedZero U0 U1 U2 V0 V1 V2 →
    tri_tri_intersect V0 V1 V2 U0 U1 U2 = tri_tri_intersect U0 U1 U2 V0 V1 V2 := by
  intro V0 V1 V2 U0 U1 U2 hdu hdv
  simp only [allSnappedZero, snapDist] at hdu hdv
  simp only [tri_tri_intersect]
  set N1 := triNormal V0 V1 V2 with hN1
  set N2 := triNormal U0 U1 U2 with hN2
  set du0 := eps_snap (Vec3.dot N1 U0 + -(Vec3.dot N1 V0)) with hdu0
  set du1 := eps_snap (Vec3.dot N1 U1 + -(Vec3.dot N1 V0)) with hdu1
  set du2 := eps_snap (Vec3.dot N1 U2 + -(Vec3.dot N1 V0)) with hdu2
  set dv0 := eps_snap (Vec3.dot N2 V0 + -(Vec3.dot N2 U0)) with hdv0
  set dv1 := eps_snap (Vec3.dot N2 V1 + -(Vec3.dot N2 U0)) with hdv1
  set dv2 := eps_snap (Vec3.dot N2 V2 + -(Vec3.dot N2 U0)) with hdv2
  have hidx : projIndex (Vec3.cross N2 N1) = projIndex (Vec3.cross N1 N2) := by
    rw [cross_swap N2 N1, projIndex_neg]
  simp only [hidx]
  set idx := projIndex (Vec3.cross N1 N2) with hidxdef
  by_cases hcu : 0 < du0 * du1 ∧ 0 < du0 * du2
  · rw [if_pos hcu]
    by_cases hcv : 0 < dv0 * dv1 ∧ 0 < dv0 * dv2
    · rw [if_pos hcv]
    · rw [if_neg hcv, if_pos hcu]
  · rw [if_neg hcu]
    by_cases hcv : 0 < dv0 * dv1 ∧ 0 < dv0 * dv2
    · rw [if_pos hcv, if_pos hcv]
    · rw [if_neg hcv, if_neg hcv, if_neg hcu]
      cases h1 : compute_intervals (V0.nth idx) (V1.nth idx) (V2.nth idx)
          dv0 dv1 dv2 (dv0 * dv1) (dv0 * dv2) with
      | none =>
        exact absurd ((compute_intervals_none_iff _ _ _ _ _ _).mp h1)
          (by rw [hdv0, hdv1, hdv2]; exact fun ⟨a, b, c⟩ => hdv ⟨a, b, c⟩)
      | some is1 =>
        cases h2 : compute_intervals (U0.nth idx) (U1.nth idx) (U2.nth idx)
            du0 du1 du2 (du0 * du1) (du0 * du2) with
        | none =>
          exact absurd ((compute_intervals_none_iff _ _ _ _ _ _).mp h2)
            (by rw [hdu0, hdu1, hdu2]; exact fun ⟨a, b, c⟩ => hdu ⟨a, b, c⟩)
        | some is2 =>
          simp only [h1, h2]
          exact intervalsOverlap_comm _ _

/-- Witness for the amended C2: a non-coplanar pair (unit triangle in z=0
against a lifted triangle) where the overlap test is symmetric. -/
theorem claim_C2_amended_witness :
    ¬ allSnappedZero ⟨0,0,0⟩ ⟨1,0,0⟩ ⟨0,1,0⟩ ⟨0,0,1⟩ ⟨1,0,1⟩ ⟨0,1,2⟩ ∧
    ¬ allSnappedZero ⟨0,0,1⟩ ⟨1,0,1⟩ ⟨0,1,2⟩ ⟨0,0,0⟩ ⟨1,0,0⟩ ⟨0,1,0⟩ ∧
    tri_tri_intersect ⟨0,0,0⟩ ⟨1,0,0⟩ ⟨0,1,0⟩ ⟨0,0,1⟩ ⟨1,0,1⟩ ⟨0,1,2⟩ =
      tri_tri_intersect ⟨0,0,1⟩ ⟨1,0,1⟩ ⟨0,1,2⟩ ⟨0,0,0⟩ ⟨1,0,0⟩ ⟨0,1,0⟩ :=
  ⟨by norm_num [allSnappedZero, snapDist, eps_snap, EPSILON, triNormal, Vec3.cross,
      Vec3.dot, Vec3.sub_def, abs_lt],
   by norm_num [allSnappedZero, snapDist, eps_snap, EPSILON, triNormal, Vec3.cross,
      Vec3.dot, Vec3.sub_def, abs_lt],
   claim_C2_amended ⟨0,0,0⟩ ⟨1,0,0⟩ ⟨0,1,0⟩ ⟨0,0,1⟩ ⟨1,0,1⟩ ⟨0,1,2⟩
     (by norm_num [allSnappedZero, snapDist, eps_snap, EPSILON, triNormal, Vec3.cross,
        Vec3.dot, Vec3.sub_def, abs_lt])
     (by norm_num [allSnappedZero, snapDist, eps_snap, EPSILON, triNormal, Vec3.cross,
        Vec3.dot, Vec3.sub_def, abs_lt])⟩

/-- C4 (amended): `closestPointOnTrianglePerimeter` returns one of the
three per-edge closest points, always one attaining the minimum squared
distance; but ties are broken in favor of the HIGHER edge index: edge 0
wins only when strictly closer than both others, edge 1 wins when
`d1 ≤ d0` and `d1 < d2`, and edge 2 wins in all remaining cases. -/
theorem claim_C4_amended :
    ∀ (v0 v1 v2 e0 e1 e2 : Vec3) (l0 l1 l2 : ℚ) (point r0 r1 r2 : Vec3)
      (dd0 dd1 dd2 : ℚ),
    r0 = closestPointOnLineSegment v0 v1 e0 l0 point →
    r1 = closestPointOnLineSegment v1 v2 e1 l1 point →
    r2 = closestPointOnLineSegment v2 v0 e2 l2 point →
    dd0 = Vec3.squaredNorm (r0 - point) →
    dd1 = Vec3.squaredNorm (r1 - point) →
    dd2 = Vec3.squaredNorm (r2 - point) →
    closestPointOnTrianglePerimeter v0 v1 v2 e0 e1 e2 l0 l1 l2 point =
        (if dd0 < dd1 ∧ dd0 < dd2 then (r0, 0)
         else if dd1 ≤ dd0 ∧ dd1 < dd2 then (r1, 1)
         else (r2, 2)) ∧
      Vec3.squaredNorm
          ((closestPointOnTrianglePerimeter v0 v1 v2 e0 e1 e2 l0 l1 l2 point).1 -
            point) ≤ dd0 ∧
      Vec3.squaredNorm
          ((closestPointOnTrianglePerimeter v0 v1 v2 e0 e1 e2 l0 l1 l2 point).1 -
            point) ≤ dd1 ∧
      Vec3.squaredNorm
          ((closestPointOnTrianglePerimeter v0 v1 v2 e0 e1 e2 l0 l1 l2 point).1 -
            point) ≤ dd2 := by
  intro v0 v1 v2 e0 e1 e2 l0 l1 l2 point r0 r1 r2 dd0 dd1 dd2 h0 h1 h2 g0 g1 g2
  subst h0; subst h1; subst h2; subst g0; subst g1; subst g2
  simp only [closestPointOnTrianglePerimeter]
  set r0 := closestPointOnLineSegment v0 v1 e0 l0 point with hr0
  set r1 := closestPointOnLineSegment v1 v2 e1 l1 point with hr1
  set r2 := closestPointOnLineSegment v2 v0 e2 l2 point with hr2
  set dd0 := Vec3.squaredNorm (r0 - point) with hdd0
  set dd1 := Vec3.squaredNorm (r1 - point) with hdd1
  set dd2 := Vec3.squaredNorm (r2 - point) with hdd2
  by_cases h1 : dd0 < dd1
  · by_cases h2 : dd0 < dd2
    · rw [if_pos h1, if_pos h2, if_pos ⟨h1, h2⟩]
      exact ⟨rfl, le_refl _, le_of_lt h1, le_of_lt h2⟩
    · rw [if_pos h1, if_neg h2, if_neg (fun hc => h2 hc.2),
        if_neg (fun hc => absurd h1 (not_lt.mpr hc.1))]
      have h2' := not_lt.mp h2
      exact ⟨rfl, h2', by linarith, le_refl _⟩
  · by_cases h3 : dd1 < dd2
    · rw [if_neg h1, if_pos h3, if_neg (fun hc => h1 hc.1),
        if_pos ⟨not_lt.mp h1, h3⟩]
      exact ⟨rfl, not_lt.mp h1, le_refl _, le_of_lt h3⟩
    · rw [if_neg h1, if_neg h3, if_neg (fun hc => h1 hc.1),
        if_neg (fun hc => h3 hc.2)]
      have h1' := not_lt.mp h1
      have h3' := not_lt.mp h3
      exact ⟨rfl, by linarith, h3', le_refl _⟩

/-- C4 counterexample: for the right triangle (0,0,0),(1,0,0),(1,4/3,0)
with exact unit edge directions and the query point (3/4,1/4,0), edges 0
and 1 are tied for nearest (squared distance 1/16, strictly less than
edge 2's), yet the function picks edge 1, not the lowest-numbered tied
edge 0, and returns a different point than edge 0's closest point. -/
theorem claim_C4_counterexample :
    Vec3.squaredNorm
        (closestPointOnLineSegment ⟨0,0,0⟩ ⟨1,0,0⟩ ⟨1,0,0⟩ 1 ⟨3/4,1/4,0⟩ -
          ⟨3/4,1/4,0⟩) =
      Vec3.squaredNorm
        (closestPointOnLineSegment ⟨1,0,0⟩ ⟨1,4/3,0⟩ ⟨0,1,0⟩ (4/3) ⟨3/4,1/4,0⟩ -
          ⟨3/4,1/4,0⟩) ∧
    Vec3.squaredNorm
        (closestPointOnLineSegment ⟨0,0,0⟩ ⟨1,0,0⟩ ⟨1,0,0⟩ 1 ⟨3/4,1/4,0⟩ -
          ⟨3/4,1/4,0⟩) <
      Vec3.squaredNorm
        (closestPointOnLineSegment ⟨1,4/3,0⟩ ⟨0,0,0⟩ ⟨-3/5,-4/5,0⟩ (5/3) ⟨3/4,1/4,0⟩ -
          ⟨3/4,1/4,0⟩) ∧
    (closestPointOnTrianglePerimeter ⟨0,0,0⟩ ⟨1,0,0⟩ ⟨1,4/3,0⟩
        ⟨1,0,0⟩ ⟨0,1,0⟩ ⟨-3/5,-4/5,0⟩ 1 (4/3) (5/3) ⟨3/4,1/4,0⟩).2 = 1 ∧
    (closestPointOnTrianglePerimeter ⟨0,0,0⟩ ⟨1,0,0⟩ ⟨1,4/3,0⟩
        ⟨1,0,0⟩ ⟨0,1,0⟩ ⟨-3/5,-4/5,0⟩ 1 (4/3) (5/3) ⟨3/4,1/4,0⟩).1 ≠
      closestPointOnLineSegment ⟨0,0,0⟩ ⟨1,0,0⟩ ⟨1,0,0⟩ 1 ⟨3/4,1/4,0⟩ := by
  norm_num [closestPointOnTrianglePerimeter, closestPointOnLineSegment,
    Vec3.squaredNorm, Vec3.dot, Vec3.sub_def, Vec3.add_def, Vec3.smul, Vec3.mk.injEq]

/-- Witness for the amended C4: instantiating at the tie-breaking input
shows the characterization holds there. -/
theorem claim_C4_amended_witness :
    closestPointOnTrianglePerimeter ⟨0,0,0⟩ ⟨1,0,0⟩ ⟨1,4/3,0⟩
        ⟨1,0,0⟩ ⟨0,1,0⟩ ⟨-3/5,-4/5,0⟩ 1 (4/3) (5/3) ⟨3/4,1/4,0⟩ =
        (if Vec3.squaredNorm
              (closestPointOnLineSegment ⟨0,0,0⟩ ⟨1,0,0⟩ ⟨1,0,0⟩ 1 ⟨3/4,1/4,0⟩ -
                ⟨3/4,1/4,0⟩) <
            Vec3.squaredNorm
              (closestPointOnLineSegment ⟨1,0,0⟩ ⟨1,4/3,0⟩ ⟨0,1,0⟩ (4/3) ⟨3/4,1/4,0⟩ -
                ⟨3/4,1/4,0⟩) ∧
            Vec3.squaredNorm
              (closestPointOnLineSegment ⟨0,0,0⟩ ⟨1,0,0⟩ ⟨1,0,0⟩ 1 ⟨3/4,1/4,0⟩ -
                ⟨3/4,1/4,0⟩) <
            Vec3.squaredNorm
              (closestPointOnLineSegment ⟨1,4/3,0⟩ ⟨0,0,0⟩ ⟨-3/5,-4/5,0⟩ (5/3)
                  ⟨3/4,1/4,0⟩ - ⟨3/4,1/4,0⟩) then
          (closestPointOnLineSegment ⟨0,0,0⟩ ⟨1,0,0⟩ ⟨1,0,0⟩ 1 ⟨3/4,1/4,0⟩, 0)
         else if Vec3.squaredNorm
              (closestPointOnLineSegment ⟨1,0,0⟩ ⟨1,4/3,0⟩ ⟨0,1,0⟩ (4/3) ⟨3/4,1/4,0⟩ -
                ⟨3/4,1/4,0⟩) ≤
            Vec3.squaredNorm
              (closestPointOnLineSegment ⟨0,0,0⟩ ⟨1,0,0⟩ ⟨1,0,0⟩ 1 ⟨3/4,1/4,0⟩ -
                ⟨3/4,1/4,0⟩) ∧
            Vec3.squaredNorm
              (closestPointOnLineSegment ⟨1,0,0⟩ ⟨1,4/3,0⟩ ⟨0,1,0⟩ (4/3) ⟨3/4,1/4,0⟩ -
                ⟨3/4,1/4,0⟩) <
            Vec3.squaredNorm
              (closestPointOnLineSegment ⟨1,4/3,0⟩ ⟨0,0,0⟩ ⟨-3/5,-4/5,0⟩ (5/3)
                  ⟨3/4,1/4,0⟩ - ⟨3/4,1/4,0⟩) then
          (closestPointOnLineSegment ⟨1,0,0⟩ ⟨1,4/3,0⟩ ⟨0,1,0⟩ (4/3) ⟨3/4,1/4,0⟩, 1)
         else
          (closestPointOnLineSegment ⟨1,4/3,0⟩ ⟨0,0,0⟩ ⟨-3/5,-4/5,0⟩ (5/3)
              ⟨3/4,1/4,0⟩, 2)) :=
  (claim_C4_amended ⟨0,0,0⟩ ⟨1,0,0⟩ ⟨1,4/3,0⟩ ⟨1,0,0⟩ ⟨0,1,0⟩ ⟨-3/5,-4/5,0⟩
    1 (4/3) (5/3) ⟨3/4,1/4,0⟩ _ _ _ _ _ _ rfl rfl rfl rfl rfl rfl).1

/-- C5: `rayTriangleIntersectionTime` returns the sentinel −1 exactly when
the direction is parallel to the triangle's plane within the 1e-30
tolerance, or a barycentric coordinate of the crossing is negative, or
their sum exceeds 1, or the ray parameter of the crossing is negative;
otherwise it returns the parametric crossing time. -/
theorem claim_C5 :
    ∀ (ray : Ray3) (v0 edge01 edge02 : Vec3) (p b1 b2 t : ℚ),
    p = Vec3.dot ray.direction (Vec3.cross edge01 edge02) →
    b1 = Vec3.dot ray.direction (Vec3.cross (ray.origin - v0) edge02) / p →
    b2 = Vec3.dot ray.direction (Vec3.cross edge01 (ray.origin - v0)) / p →
    t = -(Vec3.dot (ray.origin - v0) (Vec3.cross edge01 edge02)) / p →
    (|p| ≤ rayEPS → rayTriangleIntersectionTime ray v0 edge01 edge02 = -1) ∧
    (rayEPS < |p| →
      ((b1 < 0 ∨ b2 < 0 ∨ 1 < b1 + b2 ∨ t < 0) →
        rayTriangleIntersectionTime ray v0 edge01 edge02 = -1) ∧
      (0 ≤ b1 → 0 ≤ b2 → b1 + b2 ≤ 1 → 0 ≤ t →
        rayTriangleIntersectionTime ray v0 edge01 edge02 = t)) := by
  intro ray v0 edge01 edge02 p b1 b2 t hp hb1 hb2 ht
  subst hp; subst hb1; subst hb2; subst ht
  have hEPS : (0:ℚ) < rayEPS := by norm_num [rayEPS]
  simp only [rayTriangleIntersectionTime, rayTriTail]
  set P := Vec3.dot ray.direction (Vec3.cross edge01 edge02) with hP
  set n1 := Vec3.dot ray.direction (Vec3.cross (ray.origin - v0) edge02) with hn1
  set n2 := Vec3.dot ray.direction (Vec3.cross edge01 (ray.origin - v0)) with hn2
  set q := Vec3.dot (ray.origin - v0) (Vec3.cross edge01 edge02) with hq
  constructor
  · intro habs
    rw [if_neg (by have := (abs_le.mp habs).2; linarith),
      if_neg (by have := (abs_le.mp habs).1; linarith)]
  · intro hgt
    rcases lt_or_le rayEPS P with hpos | hP2
    · have hP0 : (0:ℚ) < P := lt_trans hEPS hpos
      have hPne : P ≠ 0 := ne_of_gt hP0
      have d1 : n1 / P * P = n1 := div_mul_cancel₀ _ hPne
      have d2 : n2 / P * P = n2 := div_mul_cancel₀ _ hPne
      have d3 : -q / P * P = -q := div_mul_cancel₀ _ hPne
      have dsum : (n1 / P + n2 / P) * P = n1 + n2 := by rw [add_mul, d1, d2]
      rw [if_pos hpos]
      constructor
      · intro hrej
        split_ifs with k1 k2 k3 k4
        · exfalso
          rcases hrej with h | h | h | h
          · have := mul_lt_mul_of_pos_right h hP0
            rw [d1] at this; linarith
          · have := mul_lt_mul_of_pos_right h hP0
            rw [d2] at this; linarith
          · have := mul_lt_mul_of_pos_right h hP0
            rw [dsum] at this; linarith
          · have := mul_lt_mul_of_pos_right h hP0
            rw [d3] at this; linarith
        all_goals rfl
      · intro a1 a2 a3 a4
        have m1 := mul_le_mul_of_nonneg_right a1 hP0.le
        have m2 := mul_le_mul_of_nonneg_right a2 hP0.le
        have m3 := mul_le_mul_of_nonneg_right a3 hP0.le
        have m4 := mul_le_mul_of_nonneg_right a4 hP0.le
        rw [d1] at m1; rw [d2] at m2; rw [dsum] at m3; rw [d3] at m4
        rw [if_pos (by linarith), if_pos (by linarith), if_pos (by linarith),
          if_pos (by linarith)]
        ring_nf
    · have hneg : P < -rayEPS := by
        rcases abs_cases P with ⟨he, _⟩ | ⟨he, _⟩
        · rw [he] at hgt; linarith
        · rw [he] at hgt; linarith
      have hP0 : P < 0 := by linarith
      have hPne : P ≠ 0 := ne_of_lt hP0
      have d1 : n1 / P * P = n1 := div_mul_cancel₀ _ hPne
      have d2 : n2 / P * P = n2 := div_mul_cancel₀ _ hPne
      have d3 : -q / P * P = -q := div_mul_cancel₀ _ hPne
      have dsum : (n1 / P + n2 / P) * P = n1 + n2 := by rw [add_mul, d1, d2]
      rw [if_neg (by linarith), if_pos hneg]
      constructor
      · intro hrej
        split_ifs with k1 k2 k3 k4
        · exfalso
          rcases hrej with h | h | h | h
          · have := mul_lt_mul_of_neg_right h hP0
            rw [d1] at this; linarith
          · have := mul_lt_mul_of_neg_right h hP0
            rw [d2] at this; linarith
          · have := mul_lt_mul_of_neg_right h hP0
            rw [dsum] at this; linarith
          · have := mul_lt_mul_of_neg_right h hP0
            rw [d3] at this; linarith
        all_goals rfl
      · intro a1 a2 a3 a4
        have m1 := mul_le_mul_of_nonpos_right a1 hP0.le
        have m2 := mul_le_mul_of_nonpos_right a2 hP0.le
        have m3 := mul_le_mul_of_nonpos_right a3 hP0.le
        have m4 := mul_le_mul_of_nonpos_right a4 hP0.le
        rw [d1] at m1; rw [d2] at m2; rw [dsum] at m3; rw [d3] at m4
        rw [if_pos (by linarith), if_pos (by linarith), if_pos (by linarith),
          if_pos (by linarith)]
        rw [div_neg, neg_div, neg_neg, one_mul]

/-- Witness for C5: the ray from (1/5, 1/5, 5) pointing straight down hits
the unit triangle in the z = 0 plane at time 5. -/
theorem claim_C5_witness :
    rayTriangleIntersectionTime ⟨⟨1/5,1/5,5⟩, ⟨0,0,-1⟩⟩ ⟨0,0,0⟩ ⟨1,0,0⟩ ⟨0,1,0⟩ = 5 := by
  have h := (claim_C5 ⟨⟨1/5,1/5,5⟩, ⟨0,0,-1⟩⟩ ⟨0,0,0⟩ ⟨1,0,0⟩ ⟨0,1,0⟩ (-1) (1/5) (1/5) 5
    (by norm_num [Vec3.dot, Vec3.cross, Vec3.sub_def])
    (by norm_num [Vec3.dot, Vec3.cross, Vec3.sub_def])
    (by norm_num [Vec3.dot, Vec3.cross, Vec3.sub_def])
    (by norm_num [Vec3.dot, Vec3.cross, Vec3.sub_def])).2
  exact (h (by norm_num [rayEPS])).2 (by norm_num) (by norm_num) (by norm_num)
    (by norm_num)

/-! ### Equivalence of the division-based and no-division overlap tests -/

/-- Recover the division-form interval endpoints from the
`NEWCOMPUTE_INTERVALS` quintuple `(A, B, C, X0, X1)`. -/
def ndToDiv (q : ℚ × ℚ × ℚ × ℚ × ℚ) : ℚ × ℚ :=
  (q.1 + q.2.1 / q.2.2.2.1, q.1 + q.2.2.1 / q.2.2.2.2)

theorem compute_eq_map (VV0 VV1 VV2 D0 D1 D2 P Q : ℚ) :
    compute_intervals VV0 VV1 VV2 D0 D1 D2 P Q =
      (newcompute_intervals VV0 VV1 VV2 D0 D1 D2 P Q).map ndToDiv := by
  unfold compute_intervals newcompute_intervals
  split_ifs <;> rfl

theorem newcompute_denoms (VV0 VV1 VV2 D0 D1 D2 : ℚ) (q : ℚ × ℚ × ℚ × ℚ × ℚ)
    (h : ¬ (0 < D0 * D1 ∧ 0 < D0 * D2))
    (hq : newcompute_intervals VV0 VV1 VV2 D0 D1 D2 (D0 * D1) (D0 * D2) = some q) :
    q.2.2.2.1 ≠ 0 ∧ q.2.2.2.2 ≠ 0 := by
  unfold newcompute_intervals at hq
  split_ifs at hq with h1 h2 h3 h4 h5
  · injection hq with hq'
    subst hq'
    have hnd : ¬ (0 < D0 * D2) := fun hc => h ⟨h1, hc⟩
    have hD0 : D0 ≠ 0 := by
      intro h0; rw [h0, zero_mul] at h1; exact lt_irrefl 0 h1
    constructor <;> intro he
    · have hD2 : D2 = D0 := by
        have : D2 - D0 = 0 := he
        linarith
      rw [hD2] at hnd
      exact hnd (mul_self_pos.mpr hD0)
    · have hD2 : D2 = D1 := by
        have : D2 - D1 = 0 := he
        linarith
      rw [hD2] at hnd
      exact hnd h1
  · injection hq with hq'
    subst hq'
    have hD0 : D0 ≠ 0 := by
      intro h0; rw [h0, zero_mul] at h2; exact lt_irrefl 0 h2
    constructor <;> intro he
    · have hD1 : D1 = D0 := by
        have : D1 - D0 = 0 := he
        linarith
      rw [hD1] at h1
      exact h1 (mul_self_pos.mpr hD0)
    · have hD1 : D1 = D2 := by
        have : D1 - D2 = 0 := he
        linarith
      rw [hD1] at h1
      exact h1 h2
  · injection hq with hq'
    subst hq'
    constructor <;> intro he
    · have hD0 : D0 = D1 := by
        have : D0 - D1 = 0 := he
        linarith
      rcases h3 with h3a | h3b
      · have hD1 : D1 ≠ 0 := by
          intro h0; rw [h0, zero_mul] at h3a; exact lt_irrefl 0 h3a
        rw [hD0] at h1
        exact h1 (mul_self_pos.mpr hD1)
      · rw [hD0] at h3b
        rw [hD0] at h1
        exact h1 (mul_self_pos.mpr h3b)
    · have hD0 : D0 = D2 := by
        have : D0 - D2 = 0 := he
        linarith
      rcases h3 with h3a | h3b
      · have hD2 : D2 ≠ 0 := by
          intro h0; rw [h0, mul_zero] at h3a; exact lt_irrefl 0 h3a
        rw [hD0] at h2
        exact h2 (mul_self_pos.mpr hD2)
      · rw [hD0] at h3b
        rw [hD0] at h2
        exact h2 (mul_self_pos.mpr h3b)
  · injection hq with hq'
    subst hq'
    push_neg at h3
    constructor <;> intro he
    · have he' : D1 - D0 = 0 := he
      exact h4 (by linarith [h3.2])
    · have he' : D1 - D2 = 0 := he
      have hD2 : D2 = D1 := by linarith
      rw [hD2] at h3
      exact absurd (mul_self_pos.mpr h4) (not_lt.mpr h3.1)
  · injection hq with hq'
    subst hq'
    push_neg at h3 h4
    constructor <;> intro he
    · have he' : D2 - D0 = 0 := he
      exact h5 (by linarith [h3.2])
    · have he' : D2 - D1 = 0 := he
      exact h5 (by linarith [h4])

theorem min_mul_of_pos (a b s : ℚ) (hs : 0 < s) :
    min (a * s) (b * s) = min a b * s := by
  rcases le_total a b with h | h
  · rw [min_eq_left (mul_le_mul_of_nonneg_right h hs.le), min_eq_left h]
  · rw [min_eq_right (mul_le_mul_of_nonneg_right h hs.le), min_eq_right h]

theorem max_mul_of_pos (a b s : ℚ) (hs : 0 < s) :
    max (a * s) (b * s) = max a b * s := by
  rcases le_total a b with h | h
  · rw [max_eq_right (mul_le_mul_of_nonneg_right h hs.le), max_eq_right h]
  · rw [max_eq_left (mul_le_mul_of_nonneg_right h hs.le), max_eq_left h]

theorem min_mul_of_neg (a b s : ℚ) (hs : s < 0) :
    min (a * s) (b * s) = max a b * s := by
  rcases le_total a b with h | h
  · rw [min_eq_right (mul_le_mul_of_nonpos_right h hs.le), max_eq_right h]
  · rw [min_eq_left (mul_le_mul_of_nonpos_right h hs.le), max_eq_left h]

theorem max_mul_of_neg (a b s : ℚ) (hs : s < 0) :
    max (a * s) (b * s) = min a b * s := by
  rcases le_total a b with h | h
  · rw [max_eq_left (mul_le_mul_of_nonpos_right h hs.le), min_eq_left h]
  · rw [max_eq_right (mul_le_mul_of_nonpos_right h hs.le), min_eq_right h]

theorem overlap_scale (p q r t s : ℚ) (hs : s ≠ 0) :
    intervalsOverlap (sortPair (p * s, q * s)) (sortPair (r * s, t * s)) =
      intervalsOverlap (sortPair (p, q)) (sortPair (r, t)) := by
  rcases hs.lt_or_lt with hneg | hpos
  · simp only [sortPair_eq_min_max, intervalsOverlap]
    simp only [min_mul_of_neg _ _ _ hneg, max_mul_of_neg _ _ _ hneg,
      mul_lt_mul_right_of_neg hneg]
    rw [Bool.or_comm]
  · simp only [sortPair_eq_min_max, intervalsOverlap]
    simp only [min_mul_of_pos _ _ _ hpos, max_mul_of_pos _ _ _ hpos,
      mul_lt_mul_right hpos]

/-- C1: in exact arithmetic the division-based overlap test
`tri_tri_intersect` and the no-division variant `NoDivTriTriIsect` return
the same boolean on EVERY pair of triangles (in particular on every
well-conditioned pair). -/
theorem claim_C1 : ∀ V0 V1 V2 U0 U1 U2 : Vec3,
    tri_tri_intersect V0 V1 V2 U0 U1 U2 = NoDivTriTriIsect V0 V1 V2 U0 U1 U2 := by
  intro V0 V1 V2 U0 U1 U2
  simp only [tri_tri_intersect, NoDivTriTriIsect]
  set N1 := triNormal V0 V1 V2 with hN1
  set N2 := triNormal U0 U1 U2 with hN2
  set du0 := eps_snap (Vec3.dot N1 U0 + -(Vec3.dot N1 V0)) with hdu0
  set du1 := eps_snap (Vec3.dot N1 U1 + -(Vec3.dot N1 V0)) with hdu1
  set du2 := eps_snap (Vec3.dot N1 U2 + -(Vec3.dot N1 V0)) with hdu2
  set dv0 := eps_snap (Vec3.dot N2 V0 + -(Vec3.dot N2 U0)) with hdv0
  set dv1 := eps_snap (Vec3.dot N2 V1 + -(Vec3.dot N2 U0)) with hdv1
  set dv2 := eps_snap (Vec3.dot N2 V2 + -(Vec3.dot N2 U0)) with hdv2
  set idx := projIndex (Vec3.cross N1 N2) with hidx
  by_cases hcu : 0 < du0 * du1 ∧ 0 < du0 * du2
  · rw [if_pos hcu, if_pos hcu]
  · rw [if_neg hcu, if_neg hcu]
    by_cases hcv : 0 < dv0 * dv1 ∧ 0 < dv0 * dv2
    · rw [if_pos hcv, if_pos hcv]
    · rw [if_neg hcv, if_neg hcv]
      simp only [compute_eq_map]
      cases hq1 : newcompute_intervals (V0.nth idx) (V1.nth idx) (V2.nth idx)
          dv0 dv1 dv2 (dv0 * dv1) (dv0 * dv2) with
      | none => simp [hq1]
      | some q1 =>
        cases hq2 : newcompute_intervals (U0.nth idx) (U1.nth idx) (U2.nth idx)
            du0 du1 du2 (du0 * du1) (du0 * du2) with
        | none => simp [hq1, hq2]
        | some q2 =>
          obtain ⟨hx0, hx1⟩ := newcompute_denoms _ _ _ _ _ _ q1 hcv hq1
          obtain ⟨hy0, hy1⟩ := newcompute_denoms _ _ _ _ _ _ q2 hcu hq2
          simp only [hq1, hq2, Option.map_some']
          obtain ⟨a, b, c, x0, x1⟩ := q1
          obtain ⟨d, e, f, y0, y1⟩ := q2
          simp only [ndToDiv] at hx0 hx1 hy0 hy1 ⊢
          have hs : x0 * x1 * (y0 * y1) ≠ 0 :=
            mul_ne_zero (mul_ne_zero hx0 hx1) (mul_ne_zero hy0 hy1)
          have E1 : a * (x0 * x1 * (y0 * y1)) + b * x1 * (y0 * y1) =
              (a + b / x0) * (x0 * x1 * (y0 * y1)) := by
            field_simp; ring
          have E2 : a * (x0 * x1 * (y0 * y1)) + c * x0 * (y0 * y1) =
              (a + c / x1) * (x0 * x1 * (y0 * y1)) := by
            field_simp; ring
          have E3 : d * (x0 * x1 * (y0 * y1)) + e * (x0 * x1) * y1 =
              (d + e / y0) * (x0 * x1 * (y0 * y1)) := by
            field_simp; ring
          have E4 : d * (x0 * x1 * (y0 * y1)) + f * (x0 * x1) * y0 =
              (d + f / y1) * (x0 * x1 * (y0 * y1)) := by
            field_simp; ring
          rw [E1, E2, E3, E4]
          exact (overlap_scale (a + b / x0) (a + c / x1) (d + e / y0) (d + f / y1)
            (x0 * x1 * (y0 * y1)) hs).symm

end Thea
